import Mathlib

/-!
Shallow embedding of the go-pihole client (package gohole, main.go).

The Go program issues HTTP GET requests against a Pi-Hole admin endpoint and
decodes JSON responses into typed records.  The embedding models:

* the network as a function from request URL to an HTTP outcome
  (transport error, body-read error, or a successful body),
* process termination via log.Fatal as the FatalOr.fatal result,
* JSON values as an inductive type; the lexical layer of encoding/json
  (bytes to JSON value) is abstracted as a parse parameter, while the
  shape-checking layer of json.Unmarshal into each Go type is modelled
  concretely below,
* Go maps that are decoded from JSON objects as association lists in
  document order; Go map iteration in the presenters is modelled as
  iteration over the association list in insertion order (the Go spec
  leaves map iteration order unspecified; insertion order is the order
  the spec documents for the tie-break).

JSON numbers are modelled as rationals; float32 fields store the decoded
rational (floating-point rounding is not modelled; no claim depends on
non-integer numeric values).
-/

/-- JSON values.  Objects keep their fields in document order; duplicate
keys are permitted (later occurrences overwrite on lookup, as in Go). -/
inductive Json where
  | null : Json
  | bool (b : Bool) : Json
  | num (q : Rat) : Json
  | str (s : String) : Json
  | arr (elems : List Json) : Json
  | obj (fields : List (String × Json)) : Json

/-- PiHConnector: Host and Token, as in the Go struct. -/
structure PiHConnector where
  Host : String
  Token : String
deriving DecidableEq

/-- Outcome of one HTTP GET (http.Get followed by io.ReadAll). -/
inductive HttpOutcome where
  | transportError : HttpOutcome
  | readError : HttpOutcome
  | ok (body : String) : HttpOutcome
deriving DecidableEq

/-- The network: maps a request URL to the outcome of fetching it. -/
def World : Type := String → HttpOutcome

/-- Result of a Go function that may call log.Fatal: fatal means the
process terminated; ret a means the function returned a. -/
inductive FatalOr (α : Type) where
  | fatal : FatalOr α
  | ret (a : α) : FatalOr α
deriving DecidableEq

/-- The URL built by PiHConnector.Get: http:// + Host + /admin/api.php? +
endpoint, then &auth= + Token appended when Token is non-empty
(main.go lines 118-121). -/
def requestString (ph : PiHConnector) (endpoint : String) : String :=
  let r := "http://" ++ ph.Host ++ "/admin/api.php?" ++ endpoint
  if ph.Token ≠ "" then r ++ "&auth=" ++ ph.Token else r

/-- PiHConnector.Get: fetch the URL; transport errors and body-read
errors hit log.Fatal (main.go lines 117-135). -/
def PiHConnector.Get (ph : PiHConnector) (endpoint : String) (w : World) :
    FatalOr String :=
  match w (requestString ph endpoint) with
  | HttpOutcome.transportError => FatalOr.fatal
  | HttpOutcome.readError => FatalOr.fatal
  | HttpOutcome.ok body => FatalOr.ret body

/-- PiHType: Pi-Hole backend type.  The Go field is named Type; Lean
reserves that word, so the field is TypeName here. -/
structure PiHType where
  TypeName : String
deriving DecidableEq

/-- PiHVersion: API version (Go float32, modelled as a rational). -/
structure PiHVersion where
  Version : Rat
deriving DecidableEq

/-- Relative part of the gravity-last-updated record. -/
structure Relative where
  Days : Int
  Hours : Int
  Minutes : Int
deriving DecidableEq

/-- GravityLastUpdated record nested in the summary. -/
structure GravityLastUpdated where
  FileExists : Bool
  Absolute : Int
  Rel : Relative
deriving DecidableEq

/-- PiHSummary: the 24h summary record; every counter field has Go type
string (main.go lines 36-65). -/
structure PiHSummary where
  DomainsBeingBlocked : String
  DNSQueriesToday : String
  AdsBlockedToday : String
  AdsPercentageToday : String
  UniqueDomains : String
  QueriesForwarded : String
  QueriesCached : String
  ClientsEverSeen : String
  UniqueClients : String
  DNSQueriesAllTypes : String
  ReplyUNKNOWN : String
  ReplyNODATA : String
  ReplyNXDOMAIN : String
  ReplyCNAME : String
  ReplyIP : String
  ReplyDOMAIN : String
  ReplyRRNAME : String
  ReplySERVFAIL : String
  ReplyREFUSED : String
  ReplyNOTIMP : String
  ReplyOTHER : String
  ReplyDNSSEC : String
  ReplyNONE : String
  ReplyBLOB : String
  DNSQueriesAllReplies : String
  PrivacyLevel : String
  Status : String
  GravityLastUpdatedF : GravityLastUpdated

/-- PiHTimeData: per-10-minute statistics; Go maps modelled as
association lists in document order. -/
structure PiHTimeData where
  AdsOverTime : List (String × Int)
  DomainsOverTime : List (String × Int)
deriving DecidableEq

/-- PiHTopItems: top queries and top blocked domains. -/
structure PiHTopItems where
  Queries : List (String × Int)
  Blocked : List (String × Int)
deriving DecidableEq

/-- PiHTopClients: client identifier to request count. -/
structure PiHTopClients where
  Clients : List (String × Int)
deriving DecidableEq

/-- PiHForwardDestinations: destination to percentage. -/
structure PiHForwardDestinations where
  Destinations : List (String × Rat)
deriving DecidableEq

/-- PiHQueryTypes: query type to percentage. -/
structure PiHQueryTypes where
  Types : List (String × Rat)
deriving DecidableEq

/-- PiHQueries: raw query log, a list of lists of strings. -/
structure PiHQueries where
  Data : List (List String)
deriving DecidableEq

/-- Lookup of a key in a JSON object field list; a later duplicate key
overwrites an earlier one, as Go object decoding does. -/
def jLookup (fields : List (String × Json)) (key : String) : Option Json :=
  fields.foldl (fun acc kv => if kv.1 = key then some kv.2 else acc) none

/-- json.Unmarshal of one object member into a Go string field: an absent
member or JSON null keeps the zero value; a JSON string is stored verbatim;
any other shape is an Unmarshal error. -/
def getStr (fields : List (String × Json)) (key : String) : Option String :=
  match jLookup fields key with
  | none => some ""
  | some Json.null => some ""
  | some (Json.str s) => some s
  | some _ => none

/-- json.Unmarshal of one object member into a Go int64 field: only an
integer-valued JSON number is accepted; absent or null keeps zero. -/
def getInt64 (fields : List (String × Json)) (key : String) : Option Int :=
  match jLookup fields key with
  | none => some 0
  | some Json.null => some 0
  | some (Json.num q) => if q.den = 1 then some q.num else none
  | some _ => none

/-- json.Unmarshal of one object member into a Go bool field. -/
def getBoolF (fields : List (String × Json)) (key : String) : Option Bool :=
  match jLookup fields key with
  | none => some false
  | some Json.null => some false
  | some (Json.bool b) => some b
  | some _ => none

/-- json.Unmarshal of one object member into a Go float32 field
(the numeric value is kept exactly as a rational). -/
def getFloat (fields : List (String × Json)) (key : String) : Option Rat :=
  match jLookup fields key with
  | none => some 0
  | some Json.null => some 0
  | some (Json.num q) => some q
  | some _ => none

/-- json.Unmarshal of a JSON object into Go map[string]string entries, in
document order: every member value must be a string (null stores the zero
string); anything else is an Unmarshal error. -/
def strMapPairs (fields : List (String × Json)) :
    Option (List (String × String)) :=
  fields.foldlM (fun acc kv =>
    match kv.2 with
    | Json.str s => some (acc ++ [(kv.1, s)])
    | Json.null => some (acc ++ [(kv.1, "")])
    | _ => none) []

/-- json.Unmarshal of a whole body into map[string]string: the top level
must be an object (or null, which leaves the nil map). -/
def unmarshalStrMap (j : Json) : Option (List (String × String)) :=
  match j with
  | Json.null => some []
  | Json.obj fields => strMapPairs fields
  | _ => none

/-- Go map read m[k]: the last binding of k, or the zero string when the
key is absent. -/
def mapGet (m : List (String × String)) (k : String) : String :=
  m.foldl (fun acc kv => if kv.1 = k then kv.2 else acc) ""

/-- json.Unmarshal of a JSON object into Go map[string]int entries. -/
def intMapPairs (fields : List (String × Json)) :
    Option (List (String × Int)) :=
  fields.foldlM (fun acc kv =>
    match kv.2 with
    | Json.num q => if q.den = 1 then some (acc ++ [(kv.1, q.num)]) else none
    | Json.null => some (acc ++ [(kv.1, 0)])
    | _ => none) []

/-- json.Unmarshal of a JSON object into Go map[string]float32 entries. -/
def ratMapPairs (fields : List (String × Json)) :
    Option (List (String × Rat)) :=
  fields.foldlM (fun acc kv =>
    match kv.2 with
    | Json.num q => some (acc ++ [(kv.1, q)])
    | Json.null => some (acc ++ [(kv.1, 0)])
    | _ => none) []

/-- Decode one object member into a Go map[string]int field. -/
def getIntMap (fields : List (String × Json)) (key : String) :
    Option (List (String × Int)) :=
  match jLookup fields key with
  | none => some []
  | some Json.null => some []
  | some (Json.obj g) => intMapPairs g
  | some _ => none

/-- Decode one object member into a Go map[string]float32 field. -/
def getRatMap (fields : List (String × Json)) (key : String) :
    Option (List (String × Rat)) :=
  match jLookup fields key with
  | none => some []
  | some Json.null => some []
  | some (Json.obj g) => ratMapPairs g
  | some _ => none

/-- Decode a JSON value into a Go []string. -/
def strList (j : Json) : Option (List String) :=
  match j with
  | Json.null => some []
  | Json.arr xs => xs.foldlM (fun acc x =>
      match x with
      | Json.str s => some (acc ++ [s])
      | Json.null => some (acc ++ [""])
      | _ => none) []
  | _ => none

/-- Decode one object member into a Go [][]string field. -/
def getStrListList (fields : List (String × Json)) (key : String) :
    Option (List (List String)) :=
  match jLookup fields key with
  | none => some []
  | some Json.null => some []
  | some (Json.arr xs) => xs.foldlM (fun acc x =>
      match strList x with
      | some l => some (acc ++ [l])
      | none => none) []
  | some _ => none

/-- json.Unmarshal into PiHType. -/
def unmarshalType (j : Json) : Option PiHType :=
  match j with
  | Json.null => some ⟨""⟩
  | Json.obj fields => do
    let t ← getStr fields "type"
    some ⟨t⟩
  | _ => none

/-- json.Unmarshal into PiHVersion. -/
def unmarshalVersion (j : Json) : Option PiHVersion :=
  match j with
  | Json.null => some ⟨0⟩
  | Json.obj fields => do
    let v ← getFloat fields "version"
    some ⟨v⟩
  | _ => none

/-- json.Unmarshal into the nested Relative record. -/
def unmarshalRelative (j : Json) : Option Relative :=
  match j with
  | Json.null => some ⟨0, 0, 0⟩
  | Json.obj fields => do
    let d ← getInt64 fields "days"
    let h ← getInt64 fields "hours"
    let m ← getInt64 fields "minutes"
    some ⟨d, h, m⟩
  | _ => none

/-- Decode one object member into the Relative struct field. -/
def getRelative (fields : List (String × Json)) (key : String) :
    Option Relative :=
  match jLookup fields key with
  | none => some ⟨0, 0, 0⟩
  | some j => unmarshalRelative j

/-- json.Unmarshal into GravityLastUpdated. -/
def unmarshalGravity (j : Json) : Option GravityLastUpdated :=
  match j with
  | Json.null => some ⟨false, 0, ⟨0, 0, 0⟩⟩
  | Json.obj fields => do
    let fe ← getBoolF fields "file_exists"
    let ab ← getInt64 fields "absolute"
    let rel ← getRelative fields "relative"
    some ⟨fe, ab, rel⟩
  | _ => none

/-- Decode one object member into the GravityLastUpdated struct field. -/
def getGravity (fields : List (String × Json)) (key : String) :
    Option GravityLastUpdated :=
  match jLookup fields key with
  | none => some ⟨false, 0, ⟨0, 0, 0⟩⟩
  | some j => unmarshalGravity j

/-- Option.bind shielded from compiler inlining (the code generator is
exponential on a 28-step inlined bind chain); definitionally it IS
Option.bind, so proofs and kernel evaluation are unaffected. -/
@[noinline] def obind {α β : Type} (a : Option α) (f : α → Option β) :
    Option β :=
  Option.bind a f

/-- json.Unmarshal into PiHSummary, one member per struct tag of
main.go lines 36-65. -/
def unmarshalSummary (j : Json) : Option PiHSummary :=
  match j with
  | Json.null =>
    some ⟨"", "", "", "", "", "", "", "", "", "", "", "", "", "", "", "",
      "", "", "", "", "", "", "", "", "", "", "", ⟨false, 0, ⟨0, 0, 0⟩⟩⟩
  | Json.obj fields =>
    obind (getStr fields "domains_being_blocked") fun f1 =>
    obind (getStr fields "dns_queries_today") fun f2 =>
    obind (getStr fields "ads_blocked_today") fun f3 =>
    obind (getStr fields "ads_percentage_today") fun f4 =>
    obind (getStr fields "unique_domains") fun f5 =>
    obind (getStr fields "queries_forwarded") fun f6 =>
    obind (getStr fields "queries_cached") fun f7 =>
    obind (getStr fields "clients_ever_seen") fun f8 =>
    obind (getStr fields "unique_clients") fun f9 =>
    obind (getStr fields "dns_queries_all_types") fun f10 =>
    obind (getStr fields "reply_UNKNOWN") fun f11 =>
    obind (getStr fields "reply_NODATA") fun f12 =>
    obind (getStr fields "reply_NXDOMAIN") fun f13 =>
    obind (getStr fields "reply_CNAME") fun f14 =>
    obind (getStr fields "reply_IP") fun f15 =>
    obind (getStr fields "reply_DOMAIN") fun f16 =>
    obind (getStr fields "reply_RRNAME") fun f17 =>
    obind (getStr fields "reply_SERVFAIL") fun f18 =>
    obind (getStr fields "reply_REFUSED") fun f19 =>
    obind (getStr fields "reply_NOTIMP") fun f20 =>
    obind (getStr fields "reply_OTHER") fun f21 =>
    obind (getStr fields "reply_DNSSEC") fun f22 =>
    obind (getStr fields "reply_NONE") fun f23 =>
    obind (getStr fields "reply_BLOB") fun f24 =>
    obind (getStr fields "dns_queries_all_replies") fun f25 =>
    obind (getStr fields "privacy_level") fun f26 =>
    obind (getStr fields "status") fun f27 =>
    obind (getGravity fields "gravity_last_updated") fun g =>
    some ⟨f1, f2, f3, f4, f5, f6, f7, f8, f9, f10, f11, f12, f13, f14, f15,
      f16, f17, f18, f19, f20, f21, f22, f23, f24, f25, f26, f27, g⟩
  | _ => none

/-- json.Unmarshal into PiHTimeData. -/
def unmarshalTimeData (j : Json) : Option PiHTimeData :=
  match j with
  | Json.null => some ⟨[], []⟩
  | Json.obj fields => do
    let a ← getIntMap fields "ads_over_time"
    let d ← getIntMap fields "domains_over_time"
    some ⟨a, d⟩
  | _ => none

/-- json.Unmarshal into PiHTopItems. -/
def unmarshalTopItems (j : Json) : Option PiHTopItems :=
  match j with
  | Json.null => some ⟨[], []⟩
  | Json.obj fields => do
    let q ← getIntMap fields "top_queries"
    let b ← getIntMap fields "top_ads"
    some ⟨q, b⟩
  | _ => none

/-- json.Unmarshal into PiHTopClients. -/
def unmarshalTopClients (j : Json) : Option PiHTopClients :=
  match j with
  | Json.null => some ⟨[]⟩
  | Json.obj fields => do
    let c ← getIntMap fields "top_sources"
    some ⟨c⟩
  | _ => none

/-- json.Unmarshal into PiHForwardDestinations. -/
def unmarshalForwardDestinations (j : Json) : Option PiHForwardDestinations :=
  match j with
  | Json.null => some ⟨[]⟩
  | Json.obj fields => do
    let d ← getRatMap fields "forward_destinations"
    some ⟨d⟩
  | _ => none

/-- json.Unmarshal into PiHQueryTypes. -/
def unmarshalQueryTypes (j : Json) : Option PiHQueryTypes :=
  match j with
  | Json.null => some ⟨[]⟩
  | Json.obj fields => do
    let t ← getRatMap fields "querytypes"
    some ⟨t⟩
  | _ => none

/-- json.Unmarshal into PiHQueries. -/
def unmarshalQueries (j : Json) : Option PiHQueries :=
  match j with
  | Json.null => some ⟨[]⟩
  | Json.obj fields => do
    let d ← getStrListList fields "data"
    some ⟨d⟩
  | _ => none

/-- Model of strconv.Itoa: decimal rendering of an integer (the Int
toString is exactly decimal notation with a leading minus sign). -/
def Itoa (n : Int) : String := toString n

/-- Shared shape of every typed accessor of main.go: Get, then
json.Unmarshal of the body via the lexical parse and the shape decoder
dec; a decode failure hits log.Fatal. -/
def getAndDecode {α : Type} (ph : PiHConnector) (endpoint : String)
    (dec : Json → Option α) (w : World) (parse : String → Option Json) :
    FatalOr α :=
  match ph.Get endpoint w with
  | FatalOr.fatal => FatalOr.fatal
  | FatalOr.ret bs =>
    match parse bs >>= dec with
    | none => FatalOr.fatal
    | some a => FatalOr.ret a

/-- PiHConnector.Type accessor (Type is reserved in Lean). -/
def PiHConnector.TypeAcc (ph : PiHConnector) (w : World)
    (parse : String → Option Json) : FatalOr PiHType :=
  getAndDecode ph "type" unmarshalType w parse

/-- PiHConnector.Version. -/
def PiHConnector.Version (ph : PiHConnector) (w : World)
    (parse : String → Option Json) : FatalOr PiHVersion :=
  getAndDecode ph "version" unmarshalVersion w parse

/-- PiHConnector.Summary (main.go lines 162-171). -/
def PiHConnector.Summary (ph : PiHConnector) (w : World)
    (parse : String → Option Json) : FatalOr PiHSummary :=
  getAndDecode ph "summary" unmarshalSummary w parse

/-- PiHConnector.TimeData. -/
def PiHConnector.TimeData (ph : PiHConnector) (w : World)
    (parse : String → Option Json) : FatalOr PiHTimeData :=
  getAndDecode ph "overTimeData10mins" unmarshalTimeData w parse

/-- PiHConnector.Top: endpoint topItems=n with n from strconv.Itoa
(main.go lines 186-195). -/
def PiHConnector.Top (ph : PiHConnector) (n : Int) (w : World)
    (parse : String → Option Json) : FatalOr PiHTopItems :=
  getAndDecode ph ("topItems=" ++ Itoa n) unmarshalTopItems w parse

/-- PiHConnector.Clients: endpoint topClients=n (main.go lines 198-207). -/
def PiHConnector.Clients (ph : PiHConnector) (n : Int) (w : World)
    (parse : String → Option Json) : FatalOr PiHTopClients :=
  getAndDecode ph ("topClients=" ++ Itoa n) unmarshalTopClients w parse

/-- PiHConnector.ForwardDestinations. -/
def PiHConnector.ForwardDestinations (ph : PiHConnector) (w : World)
    (parse : String → Option Json) : FatalOr PiHForwardDestinations :=
  getAndDecode ph "getForwardDestinations" unmarshalForwardDestinations w parse

/-- PiHConnector.QueryTypes. -/
def PiHConnector.QueryTypes (ph : PiHConnector) (w : World)
    (parse : String → Option Json) : FatalOr PiHQueryTypes :=
  getAndDecode ph "getQueryTypes" unmarshalQueryTypes w parse

/-- PiHConnector.Queries. -/
def PiHConnector.Queries (ph : PiHConnector) (w : World)
    (parse : String → Option Json) : FatalOr PiHQueries :=
  getAndDecode ph "getAllQueries" unmarshalQueries w parse

/-- PiHConnector.Enable (main.go lines 246-259): decode the body as
map[string]string (decode failure is fatal), then return the generic
error unless status equals enabled. -/
def PiHConnector.Enable (ph : PiHConnector) (w : World)
    (parse : String → Option Json) : FatalOr (Except String Unit) :=
  match ph.Get "enable" w with
  | FatalOr.fatal => FatalOr.fatal
  | FatalOr.ret bs =>
    match parse bs >>= unmarshalStrMap with
    | none => FatalOr.fatal
    | some resp =>
      if mapGet resp "status" ≠ "enabled" then
        FatalOr.ret (Except.error "Something went wrong")
      else FatalOr.ret (Except.ok ())

/-- PiHConnector.Disable (main.go lines 262-275), symmetric to Enable. -/
def PiHConnector.Disable (ph : PiHConnector) (w : World)
    (parse : String → Option Json) : FatalOr (Except String Unit) :=
  match ph.Get "disable" w with
  | FatalOr.fatal => FatalOr.fatal
  | FatalOr.ret bs =>
    match parse bs >>= unmarshalStrMap with
    | none => FatalOr.fatal
    | some resp =>
      if mapGet resp "status" ≠ "disabled" then
        FatalOr.ret (Except.error "Something went wrong")
      else FatalOr.ret (Except.ok ())

/-- PiHConnector.RecentBlocked (main.go lines 278-281): the body converted
to a string, no decoding. -/
def PiHConnector.RecentBlocked (ph : PiHConnector) (w : World) :
    FatalOr String :=
  match ph.Get "recentBlocked" w with
  | FatalOr.fatal => FatalOr.fatal
  | FatalOr.ret bs => FatalOr.ret bs

/-- Insertion into an ascending-sorted list of integers. -/
def insertAsc (x : Int) : List Int → List Int
  | [] => [x]
  | y :: ys => if x ≤ y then x :: y :: ys else y :: insertAsc x ys

/-- Model of sort.Ints: sort ascending. -/
def sortInts (l : List Int) : List Int := l.foldr insertAsc []

/-- The reverse map built by the presenter loops, applied to a frequency:
iterating the association list in order and writing reverseMap[v] = k
leaves, for each frequency f, the key of the last entry whose value is f;
reading a missing frequency from a Go map yields the zero string. -/
def revLookup (m : List (String × Int)) (f : Int) : String :=
  m.foldl (fun acc kv => if kv.2 = f then kv.1 else acc) ""

/-- The (name, frequency) pairs printed by a presenter loop: the
frequency multiset sorted ascending, iterated from the top index down,
each frequency paired with its reverse-map entry
(main.go lines 293-308, 311-326, 329-344 share this shape). -/
def entryPairs (m : List (String × Int)) : List (String × Int) :=
  (sortInts (m.map Prod.snd)).reverse.map (fun f => (revLookup m f, f))

/-- One printed line: Printf of the pair. -/
def entryLine (p : String × Int) : String :=
  "- " ++ p.1 ++ " : " ++ toString p.2

/-- PiHTopItems.ShowBlocked as the list of printed lines. -/
def PiHTopItems.ShowBlockedLines (ph : PiHTopItems) : List String :=
  "=== Blocked domains over last 24h:" :: (entryPairs ph.Blocked).map entryLine

/-- PiHTopItems.ShowQueries as the list of printed lines. -/
def PiHTopItems.ShowQueriesLines (ph : PiHTopItems) : List String :=
  "=== Queries over last 24h:" :: (entryPairs ph.Queries).map entryLine

/-- PiHTopClients.Show as the list of printed lines. -/
def PiHTopClients.ShowLines (ph : PiHTopClients) : List String :=
  "=== Clients over last 24h:" :: (entryPairs ph.Clients).map entryLine

/-- PiHSummary.Show as the list of printed lines (main.go lines 284-290). -/
def PiHSummary.ShowLines (s : PiHSummary) : List String :=
  ["=== 24h Summary:",
   "- Blocked Domains: " ++ s.AdsBlockedToday,
   "- Blocked Percentage: " ++ s.AdsPercentageToday,
   "- Queries: " ++ s.DNSQueriesToday,
   "- Clients Ever Seen: " ++ s.ClientsEverSeen]

/-- One operation of the public API surface: every accessor method on the
connector, and every presenter (presenters are methods on the decoded
records and take no connector at all). -/
inductive Call where
  | typeAcc : Call
  | version : Call
  | summary : Call
  | timeData : Call
  | top (n : Int) : Call
  | clients (n : Int) : Call
  | forwardDestinations : Call
  | queryTypes : Call
  | queries : Call
  | enable : Call
  | disable : Call
  | recentBlocked : Call
  | showSummary (s : PiHSummary) : Call
  | showBlocked (t : PiHTopItems) : Call
  | showQueries (t : PiHTopItems) : Call
  | showClients (c : PiHTopClients) : Call

/-- Execute one call against the connector and return the connector state
the method leaves behind.  Every method body of main.go reads ph.Host and
ph.Token but assigns to neither, so the translation of each body returns
the receiver unchanged after computing the method result. -/
def runCall (ph : PiHConnector) (c : Call) (w : World)
    (parse : String → Option Json) : PiHConnector :=
  match c with
  | Call.typeAcc => let _ := ph.TypeAcc w parse; ph
  | Call.version => let _ := ph.Version w parse; ph
  | Call.summary => let _ := ph.Summary w parse; ph
  | Call.timeData => let _ := ph.TimeData w parse; ph
  | Call.top n => let _ := ph.Top n w parse; ph
  | Call.clients n => let _ := ph.Clients n w parse; ph
  | Call.forwardDestinations => let _ := ph.ForwardDestinations w parse; ph
  | Call.queryTypes => let _ := ph.QueryTypes w parse; ph
  | Call.queries => let _ := ph.Queries w parse; ph
  | Call.enable => let _ := ph.Enable w parse; ph
  | Call.disable => let _ := ph.Disable w parse; ph
  | Call.recentBlocked => let _ := ph.RecentBlocked w; ph
  | Call.showSummary s => let _ := s.ShowLines; ph
  | Call.showBlocked t => let _ := t.ShowBlockedLines; ph
  | Call.showQueries t => let _ := t.ShowQueriesLines; ph
  | Call.showClients c => let _ := c.ShowLines; ph

/-- C1: For every host, token, and endpoint fragment, the URL constructed by
the base request operation Get equals http://(host)/admin/api.php?(fragment),
with the suffix &auth=(token) appended if and only if the configured token is
non-empty. -/
theorem requestString_spec (host token endpoint : String) :
    requestString ⟨host, token⟩ endpoint =
      "http://" ++ host ++ "/admin/api.php?" ++ endpoint ++
        (if token = "" then "" else "&auth=" ++ token) ∧
    (requestString ⟨host, token⟩ endpoint =
        "http://" ++ host ++ "/admin/api.php?" ++ endpoint ++ "&auth=" ++ token
      ↔ token ≠ "") := by
  constructor
  · by_cases h : token = "" <;>
      simp [requestString, h, String.append_assoc]
  · constructor
    · intro heq htok
      rw [htok] at heq
      simp [requestString] at heq
      have hlen := congrArg String.length heq
      simp [String.length_append] at hlen
      exact absurd hlen (by decide)
    · intro htok
      simp [requestString, htok, String.append_assoc]

/-- A fold that never sees the key leaves the accumulator unchanged. -/
theorem mapGet_foldl_absent (m : List (String × String)) (k : String)
    (acc : String) (h : ∀ p ∈ m, p.1 ≠ k) :
    m.foldl (fun a kv => if kv.1 = k then kv.2 else a) acc = acc := by
  induction m generalizing acc with
  | nil => rfl
  | cons p m ih =>
    have hp : p.1 ≠ k := h p (List.mem_cons_self p m)
    simp only [List.foldl, if_neg hp]
    exact ih acc (fun q hq => h q (List.mem_cons_of_mem p hq))

/-- A Go map read of a key that was never written yields the zero string. -/
theorem mapGet_absent (m : List (String × String)) (k : String)
    (h : ∀ p ∈ m, p.1 ≠ k) : mapGet m k = "" :=
  mapGet_foldl_absent m k "" h

/-- C2: Enable returns success if and only if the decoded body has a
status field exactly equal to "enabled" (a Go map read of an absent key
yields the zero string, which is not "enabled"); any other value yields
the generic error.  Symmetrically Disable with "disabled". -/
theorem enable_disable_status (ph : PiHConnector) (w : World)
    (parse : String → Option Json) (bE bD : String)
    (mE mD : List (String × String))
    (hE : w (requestString ph "enable") = HttpOutcome.ok bE)
    (hmE : parse bE >>= unmarshalStrMap = some mE)
    (hD : w (requestString ph "disable") = HttpOutcome.ok bD)
    (hmD : parse bD >>= unmarshalStrMap = some mD) :
    (ph.Enable w parse = FatalOr.ret (Except.ok ()) ↔
      mapGet mE "status" = "enabled") ∧
    (ph.Enable w parse = FatalOr.ret (Except.error "Something went wrong") ↔
      mapGet mE "status" ≠ "enabled") ∧
    ((∀ p ∈ mE, p.1 ≠ "status") →
      ph.Enable w parse = FatalOr.ret (Except.error "Something went wrong")) ∧
    (ph.Disable w parse = FatalOr.ret (Except.ok ()) ↔
      mapGet mD "status" = "disabled") ∧
    (ph.Disable w parse = FatalOr.ret (Except.error "Something went wrong") ↔
      mapGet mD "status" ≠ "disabled") := by
  have eE : ph.Enable w parse =
      (if mapGet mE "status" ≠ "enabled" then
        FatalOr.ret (Except.error "Something went wrong")
      else FatalOr.ret (Except.ok ())) := by
    simp [PiHConnector.Enable, PiHConnector.Get, hE, hmE]
  have eD : ph.Disable w parse =
      (if mapGet mD "status" ≠ "disabled" then
        FatalOr.ret (Except.error "Something went wrong")
      else FatalOr.ret (Except.ok ())) := by
    simp [PiHConnector.Disable, PiHConnector.Get, hD, hmD]
  refine ⟨?_, ?_, ?_, ?_, ?_⟩
  · rw [eE]; by_cases h : mapGet mE "status" = "enabled" <;> simp [h]
  · rw [eE]; by_cases h : mapGet mE "status" = "enabled" <;> simp [h]
  · intro habs
    rw [eE, mapGet_absent mE "status" habs]
    simp
  · rw [eD]; by_cases h : mapGet mD "status" = "disabled" <;> simp [h]
  · rw [eD]; by_cases h : mapGet mD "status" = "disabled" <;> simp [h]

/-- C2 witness: a concrete world in which Enable succeeds and Disable
fails, instantiating the theorem. -/
theorem enable_disable_status_witness :
    PiHConnector.Enable ⟨"pi.hole", "tok"⟩
      (fun u => if u = "http://pi.hole/admin/api.php?enable&auth=tok" then
        HttpOutcome.ok "E" else HttpOutcome.ok "D")
      (fun b => if b = "E" then some (Json.obj [("status", Json.str "enabled")])
        else some (Json.obj [("status", Json.str "enabled")])) =
      FatalOr.ret (Except.ok ()) ∧
    PiHConnector.Disable ⟨"pi.hole", "tok"⟩
      (fun u => if u = "http://pi.hole/admin/api.php?enable&auth=tok" then
        HttpOutcome.ok "E" else HttpOutcome.ok "D")
      (fun b => if b = "E" then some (Json.obj [("status", Json.str "enabled")])
        else some (Json.obj [("status", Json.str "enabled")])) =
      FatalOr.ret (Except.error "Something went wrong") := by
  have h := enable_disable_status ⟨"pi.hole", "tok"⟩
    (fun u => if u = "http://pi.hole/admin/api.php?enable&auth=tok" then
      HttpOutcome.ok "E" else HttpOutcome.ok "D")
    (fun b => if b = "E" then some (Json.obj [("status", Json.str "enabled")])
      else some (Json.obj [("status", Json.str "enabled")]))
    "E" "D" [("status", "enabled")] [("status", "enabled")]
    (by rfl) (by rfl) (by rfl) (by rfl)
  exact ⟨h.1.mpr (by rfl), h.2.2.2.2.mpr (by decide)⟩

/-- C3: For every accessor, a transport error, a body-read error, or a
JSON decode failure is fatal to the calling process: the base request,
every typed accessor of the getAndDecode shape (Type, Version, Summary,
TimeData, Top, Clients, ForwardDestinations, QueryTypes, Queries), and
the remaining accessors Enable, Disable and RecentBlocked all end in
fatal, never in a returned value or a recoverable error. -/
theorem transport_decode_fatal (ph : PiHConnector) (w : World)
    (parse : String → Option Json) :
    (∀ e, w (requestString ph e) = HttpOutcome.transportError →
      ph.Get e w = FatalOr.fatal) ∧
    (∀ e, w (requestString ph e) = HttpOutcome.readError →
      ph.Get e w = FatalOr.fatal) ∧
    (∀ (α : Type) (e : String) (dec : Json → Option α),
      w (requestString ph e) = HttpOutcome.transportError →
      getAndDecode ph e dec w parse = FatalOr.fatal) ∧
    (∀ (α : Type) (e : String) (dec : Json → Option α),
      w (requestString ph e) = HttpOutcome.readError →
      getAndDecode ph e dec w parse = FatalOr.fatal) ∧
    (∀ (α : Type) (e : String) (dec : Json → Option α) (b : String),
      w (requestString ph e) = HttpOutcome.ok b →
      parse b >>= dec = none →
      getAndDecode ph e dec w parse = FatalOr.fatal) ∧
    (∀ b, w (requestString ph "summary") = HttpOutcome.ok b →
      parse b >>= unmarshalSummary = none →
      ph.Summary w parse = FatalOr.fatal) ∧
    (w (requestString ph "enable") = HttpOutcome.transportError →
      ph.Enable w parse = FatalOr.fatal) ∧
    (w (requestString ph "enable") = HttpOutcome.readError →
      ph.Enable w parse = FatalOr.fatal) ∧
    (∀ b, w (requestString ph "enable") = HttpOutcome.ok b →
      parse b >>= unmarshalStrMap = none →
      ph.Enable w parse = FatalOr.fatal) ∧
    (w (requestString ph "disable") = HttpOutcome.transportError →
      ph.Disable w parse = FatalOr.fatal) ∧
    (w (requestString ph "disable") = HttpOutcome.readError →
      ph.Disable w parse = FatalOr.fatal) ∧
    (∀ b, w (requestString ph "disable") = HttpOutcome.ok b →
      parse b >>= unmarshalStrMap = none →
      ph.Disable w parse = FatalOr.fatal) ∧
    (w (requestString ph "recentBlocked") = HttpOutcome.transportError →
      ph.RecentBlocked w = FatalOr.fatal) ∧
    (w (requestString ph "recentBlocked") = HttpOutcome.readError →
      ph.RecentBlocked w = FatalOr.fatal) := by
  refine ⟨?_, ?_, ?_, ?_, ?_, ?_, ?_, ?_, ?_, ?_, ?_, ?_, ?_, ?_⟩
  · intro e h; simp [PiHConnector.Get, h]
  · intro e h; simp [PiHConnector.Get, h]
  · intro α e dec h; simp [getAndDecode, PiHConnector.Get, h]
  · intro α e dec h; simp [getAndDecode, PiHConnector.Get, h]
  · intro α e dec b h hdec; simp [getAndDecode, PiHConnector.Get, h, hdec]
  · intro b h hdec
    simp [PiHConnector.Summary, getAndDecode, PiHConnector.Get, h, hdec]
  · intro h; simp [PiHConnector.Enable, PiHConnector.Get, h]
  · intro h; simp [PiHConnector.Enable, PiHConnector.Get, h]
  · intro b h hdec; simp [PiHConnector.Enable, PiHConnector.Get, h, hdec]
  · intro h; simp [PiHConnector.Disable, PiHConnector.Get, h]
  · intro h; simp [PiHConnector.Disable, PiHConnector.Get, h]
  · intro b h hdec; simp [PiHConnector.Disable, PiHConnector.Get, h, hdec]
  · intro h; simp [PiHConnector.RecentBlocked, PiHConnector.Get, h]
  · intro h; simp [PiHConnector.RecentBlocked, PiHConnector.Get, h]

/-- C3 witness: concrete worlds exhibiting each fatal outcome through the
theorem, for the base request, a decoder-shaped accessor, Enable,
Disable and RecentBlocked. -/
theorem transport_decode_fatal_witness :
    PiHConnector.Get ⟨"pi.hole", ""⟩ "summary"
      (fun _ => HttpOutcome.transportError) = FatalOr.fatal ∧
    PiHConnector.Get ⟨"pi.hole", ""⟩ "summary"
      (fun _ => HttpOutcome.readError) = FatalOr.fatal ∧
    PiHConnector.Summary ⟨"pi.hole", ""⟩ (fun _ => HttpOutcome.ok "not json")
      (fun _ => none) = FatalOr.fatal ∧
    PiHConnector.Enable ⟨"pi.hole", ""⟩
      (fun _ => HttpOutcome.transportError) (fun _ => none) = FatalOr.fatal ∧
    PiHConnector.Enable ⟨"pi.hole", ""⟩ (fun _ => HttpOutcome.ok "not json")
      (fun _ => none) = FatalOr.fatal ∧
    PiHConnector.Disable ⟨"pi.hole", ""⟩
      (fun _ => HttpOutcome.readError) (fun _ => none) = FatalOr.fatal ∧
    PiHConnector.RecentBlocked ⟨"pi.hole", ""⟩
      (fun _ => HttpOutcome.transportError) = FatalOr.fatal := by
  refine ⟨?_, ?_, ?_, ?_, ?_, ?_, ?_⟩
  · exact (transport_decode_fatal ⟨"pi.hole", ""⟩
      (fun _ => HttpOutcome.transportError) (fun _ => none)).1 "summary" rfl
  · exact (transport_decode_fatal ⟨"pi.hole", ""⟩
      (fun _ => HttpOutcome.readError) (fun _ => none)).2.1 "summary" rfl
  · exact (transport_decode_fatal ⟨"pi.hole", ""⟩
      (fun _ => HttpOutcome.ok "not json") (fun _ => none)).2.2.2.2.2.1
      "not json" rfl rfl
  · exact (transport_decode_fatal ⟨"pi.hole", ""⟩
      (fun _ => HttpOutcome.transportError) (fun _ => none)).2.2.2.2.2.2.1 rfl
  · exact (transport_decode_fatal ⟨"pi.hole", ""⟩
      (fun _ => HttpOutcome.ok "not json")
      (fun _ => none)).2.2.2.2.2.2.2.2.1 "not json" rfl rfl
  · exact (transport_decode_fatal ⟨"pi.hole", ""⟩
      (fun _ => HttpOutcome.readError) (fun _ => none)).2.2.2.2.2.2.2.2.2.2.1
      rfl
  · exact (transport_decode_fatal ⟨"pi.hole", ""⟩
      (fun _ => HttpOutcome.transportError)
      (fun _ => none)).2.2.2.2.2.2.2.2.2.2.2.2.1 rfl

/-- C4: For the frequency mapping a.com 5, b.com 9, c.com 5 (in insertion
order), the blocked and queries displays print b.com : 9 before any entry
with frequency 5, and the single name preserved for frequency 5 is the
last-inserted colliding entry c.com, printed in both frequency-5 rows. -/
theorem show_tiebreak_example :
    PiHTopItems.ShowBlockedLines ⟨[], [("a.com", 5), ("b.com", 9), ("c.com", 5)]⟩ =
      ["=== Blocked domains over last 24h:",
       "- b.com : 9", "- c.com : 5", "- c.com : 5"] ∧
    PiHTopItems.ShowQueriesLines ⟨[("a.com", 5), ("b.com", 9), ("c.com", 5)], []⟩ =
      ["=== Queries over last 24h:",
       "- b.com : 9", "- c.com : 5", "- c.com : 5"] := by
  exact ⟨rfl, rfl⟩

/-- C10: A well-formed JSON response to the enable endpoint whose status
member holds a number (or a boolean) fails the map[string]string decode,
which is fatal; Enable does not return the generic failure result. -/
theorem enable_nonstring_status_fatal :
    PiHConnector.Enable ⟨"pi.hole", "token"⟩ (fun _ => HttpOutcome.ok "body")
      (fun _ => some (Json.obj [("status", Json.num 1)])) = FatalOr.fatal ∧
    PiHConnector.Enable ⟨"pi.hole", "token"⟩ (fun _ => HttpOutcome.ok "body")
      (fun _ => some (Json.obj [("status", Json.bool true)])) =
      FatalOr.fatal ∧
    PiHConnector.Disable ⟨"pi.hole", "token"⟩ (fun _ => HttpOutcome.ok "body")
      (fun _ => some (Json.obj [("status", Json.num 1)])) = FatalOr.fatal := by
  exact ⟨rfl, rfl, rfl⟩

/-- C7: RecentBlocked returns exactly the body converted to text, with no
JSON decode step; the result does not depend on any parse of the body,
which the definition never consults. -/
theorem recentBlocked_raw (ph : PiHConnector) (w : World) (b : String)
    (h : w (requestString ph "recentBlocked") = HttpOutcome.ok b) :
    ph.RecentBlocked w = FatalOr.ret b := by
  simp [PiHConnector.RecentBlocked, PiHConnector.Get, h]

/-- C7 witness: the theorem applied to a world serving a body that is
itself valid JSON text; the bytes come back verbatim. -/
theorem recentBlocked_raw_witness :
    PiHConnector.RecentBlocked ⟨"pi.hole", ""⟩
      (fun _ => HttpOutcome.ok "[\"ads.example.com\"]") =
      FatalOr.ret "[\"ads.example.com\"]" :=
  recentBlocked_raw ⟨"pi.hole", ""⟩ (fun _ => HttpOutcome.ok "[\"ads.example.com\"]")
    "[\"ads.example.com\"]" rfl

/-- C6: Top n and Clients n consult exactly the URL whose query fragment
is topItems= or topClients= followed by the decimal rendering of n, for
every integer n with no validation or clamping: two worlds agreeing on
that single URL give identical results, and the rendering at 0, 1 and a
negative value is the plain decimal string. -/
theorem top_clients_fragment (ph : PiHConnector) (n : Int) (w v : World)
    (parse : String → Option Json)
    (ht : w (requestString ph ("topItems=" ++ Itoa n)) =
      v (requestString ph ("topItems=" ++ Itoa n)))
    (hc : w (requestString ph ("topClients=" ++ Itoa n)) =
      v (requestString ph ("topClients=" ++ Itoa n))) :
    ph.Top n w parse = ph.Top n v parse ∧
    ph.Clients n w parse = ph.Clients n v parse ∧
    Itoa 0 = "0" ∧ Itoa 1 = "1" ∧ Itoa (-7) = "-7" := by
  refine ⟨?_, ?_, rfl, rfl, rfl⟩
  · simp only [PiHConnector.Top, getAndDecode, PiHConnector.Get, ht]
  · simp only [PiHConnector.Clients, getAndDecode, PiHConnector.Get, hc]

/-- C6 witness: the theorem applied at the negative count -5 to two
worlds that differ everywhere except on the two fragment URLs; the
accessor results coincide because only those URLs are consulted. -/
theorem top_clients_fragment_witness :
    PiHConnector.Top ⟨"pi.hole", ""⟩ (-5)
      (fun _ => HttpOutcome.ok "x") (fun _ => none) =
      PiHConnector.Top ⟨"pi.hole", ""⟩ (-5)
        (fun u => if u = "http://pi.hole/admin/api.php?topItems=-5" then
            HttpOutcome.ok "x"
          else if u = "http://pi.hole/admin/api.php?topClients=-5" then
            HttpOutcome.ok "x"
          else HttpOutcome.transportError)
        (fun _ => none) :=
  (top_clients_fragment ⟨"pi.hole", ""⟩ (-5)
    (fun _ => HttpOutcome.ok "x")
    (fun u => if u = "http://pi.hole/admin/api.php?topItems=-5" then
        HttpOutcome.ok "x"
      else if u = "http://pi.hole/admin/api.php?topClients=-5" then
        HttpOutcome.ok "x"
      else HttpOutcome.transportError)
    (fun _ => none) (by decide) (by decide)).1

/-- C5: Decoding a well-formed summary JSON body preserves every counter
field verbatim as text: for arbitrary transmitted strings s1 to s27, the
decoded record stores exactly those strings, including ones that look
numeric. -/
theorem summary_fields_verbatim
    (s1 s2 s3 s4 s5 s6 s7 s8 s9 s10 s11 s12 s13 s14 s15 s16 s17 s18 s19
      s20 s21 s22 s23 s24 s25 s26 s27 : String)
    (fe : Bool) (ab d h mi : Rat)
    (hab : ab.den = 1) (hd : d.den = 1) (hh : h.den = 1) (hmi : mi.den = 1) :
    unmarshalSummary (Json.obj
      [("domains_being_blocked", Json.str s1),
       ("dns_queries_today", Json.str s2),
       ("ads_blocked_today", Json.str s3),
       ("ads_percentage_today", Json.str s4),
       ("unique_domains", Json.str s5),
       ("queries_forwarded", Json.str s6),
       ("queries_cached", Json.str s7),
       ("clients_ever_seen", Json.str s8),
       ("unique_clients", Json.str s9),
       ("dns_queries_all_types", Json.str s10),
       ("reply_UNKNOWN", Json.str s11),
       ("reply_NODATA", Json.str s12),
       ("reply_NXDOMAIN", Json.str s13),
       ("reply_CNAME", Json.str s14),
       ("reply_IP", Json.str s15),
       ("reply_DOMAIN", Json.str s16),
       ("reply_RRNAME", Json.str s17),
       ("reply_SERVFAIL", Json.str s18),
       ("reply_REFUSED", Json.str s19),
       ("reply_NOTIMP", Json.str s20),
       ("reply_OTHER", Json.str s21),
       ("reply_DNSSEC", Json.str s22),
       ("reply_NONE", Json.str s23),
       ("reply_BLOB", Json.str s24),
       ("dns_queries_all_replies", Json.str s25),
       ("privacy_level", Json.str s26),
       ("status", Json.str s27),
       ("gravity_last_updated", Json.obj
         [("file_exists", Json.bool fe),
          ("absolute", Json.num ab),
          ("relative", Json.obj
            [("days", Json.num d),
             ("hours", Json.num h),
             ("minutes", Json.num mi)])])]) =
      some ⟨s1, s2, s3, s4, s5, s6, s7, s8, s9, s10, s11, s12, s13, s14,
        s15, s16, s17, s18, s19, s20, s21, s22, s23, s24, s25, s26, s27,
        ⟨fe, ab.num, ⟨d.num, h.num, mi.num⟩⟩⟩ := by
  simp [unmarshalSummary, obind, getStr, getGravity, unmarshalGravity,
    getBoolF, getInt64, getRelative, unmarshalRelative, jLookup,
    hab, hd, hh, hmi]

/-- C5 witness: the theorem applied to a concrete summary body whose
counters are numeric-looking strings; each comes back verbatim. -/
theorem summary_fields_verbatim_witness :
    unmarshalSummary (Json.obj
      [("domains_being_blocked", Json.str "112555"),
       ("dns_queries_today", Json.str "35843"),
       ("ads_blocked_today", Json.str "7363"),
       ("ads_percentage_today", Json.str "20.5"),
       ("unique_domains", Json.str "1"),
       ("queries_forwarded", Json.str "2"),
       ("queries_cached", Json.str "3"),
       ("clients_ever_seen", Json.str "4"),
       ("unique_clients", Json.str "5"),
       ("dns_queries_all_types", Json.str "6"),
       ("reply_UNKNOWN", Json.str "7"),
       ("reply_NODATA", Json.str "8"),
       ("reply_NXDOMAIN", Json.str "9"),
       ("reply_CNAME", Json.str "10"),
       ("reply_IP", Json.str "11"),
       ("reply_DOMAIN", Json.str "12"),
       ("reply_RRNAME", Json.str "13"),
       ("reply_SERVFAIL", Json.str "14"),
       ("reply_REFUSED", Json.str "15"),
       ("reply_NOTIMP", Json.str "16"),
       ("reply_OTHER", Json.str "17"),
       ("reply_DNSSEC", Json.str "18"),
       ("reply_NONE", Json.str "19"),
       ("reply_BLOB", Json.str "20"),
       ("dns_queries_all_replies", Json.str "21"),
       ("privacy_level", Json.str "0"),
       ("status", Json.str "enabled"),
       ("gravity_last_updated", Json.obj
         [("file_exists", Json.bool true),
          ("absolute", Json.num 1567323672),
          ("relative", Json.obj
            [("days", Json.num 3),
             ("hours", Json.num 2),
             ("minutes", Json.num 43)])])]) =
      some ⟨"112555", "35843", "7363", "20.5", "1", "2", "3", "4", "5",
        "6", "7", "8", "9", "10", "11", "12", "13", "14", "15", "16",
        "17", "18", "19", "20", "21", "0", "enabled",
        ⟨true, 1567323672, ⟨3, 2, 43⟩⟩⟩ := by
  have h := summary_fields_verbatim "112555" "35843" "7363" "20.5" "1" "2"
    "3" "4" "5" "6" "7" "8" "9" "10" "11" "12" "13" "14" "15" "16" "17"
    "18" "19" "20" "21" "0" "enabled" true 1567323672 3 2 43
    (by rfl) (by rfl) (by rfl) (by rfl)
  exact h

/-- Auxiliary: each method body of main.go leaves the receiver unchanged
because it never assigns through the pointer. -/
theorem runCall_id (ph : PiHConnector) (c : Call) (w : World)
    (parse : String → Option Json) : runCall ph c w parse = ph := by
  cases c <;> rfl

/-- C8: Every accessor and presenter operation leaves the Connector
fields unchanged: after any sequence of calls against one connector, the
connector still holds the host and token set at construction, so each
call observes the constructed values. -/
theorem connector_immutable (ph : PiHConnector) (cs : List Call) (w : World)
    (parse : String → Option Json) :
    cs.foldl (fun p c => runCall p c w parse) ph = ph ∧
    (cs.foldl (fun p c => runCall p c w parse) ph).Host = ph.Host ∧
    (cs.foldl (fun p c => runCall p c w parse) ph).Token = ph.Token := by
  have h : cs.foldl (fun p c => runCall p c w parse) ph = ph := by
    induction cs with
    | nil => rfl
    | cons c cs ih =>
      rw [List.foldl_cons, runCall_id]
      exact ih
  exact ⟨h, by rw [h], by rw [h]⟩

/-- Inserting into a sorted list grows the length by one. -/
theorem length_insertAsc (x : Int) (l : List Int) :
    (insertAsc x l).length = l.length + 1 := by
  induction l with
  | nil => rfl
  | cons y ys ih =>
    simp only [insertAsc]
    split
    · simp
    · simp [ih]

/-- sort.Ints preserves length. -/
theorem length_sortInts (l : List Int) : (sortInts l).length = l.length := by
  induction l with
  | nil => rfl
  | cons x xs ih =>
    have hs : sortInts (x :: xs) = insertAsc x (sortInts xs) := rfl
    rw [hs, length_insertAsc, ih]
    rfl

/-- Inserting into a sorted list adds one occurrence of the inserted
value and keeps every other count. -/
theorem count_insertAsc (x a : Int) (l : List Int) :
    (insertAsc x l).count a = l.count a + if a = x then 1 else 0 := by
  induction l with
  | nil =>
    simp only [insertAsc, List.count_cons, List.count_nil, beq_iff_eq]
    split_ifs <;> omega
  | cons y ys ih =>
    simp only [insertAsc]
    split
    · simp only [List.count_cons, beq_iff_eq]
      split_ifs <;> omega
    · simp only [List.count_cons, ih, beq_iff_eq]
      split_ifs <;> omega

/-- sort.Ints preserves the multiset of frequencies. -/
theorem count_sortInts (l : List Int) (a : Int) :
    (sortInts l).count a = l.count a := by
  induction l with
  | nil => rfl
  | cons x xs ih =>
    have hs : sortInts (x :: xs) = insertAsc x (sortInts xs) := rfl
    rw [hs, count_insertAsc, ih, List.count_cons]
    simp only [beq_iff_eq]
    split_ifs <;> omega

/-- Counting a pair in the image of the pairing map is counting its
frequency component. -/
theorem count_pair_map (g : Int → String) (l : List Int) (f : Int) :
    (l.map (fun x => (g x, x))).count (g f, f) = l.count f := by
  induction l with
  | nil => rfl
  | cons x xs ih =>
    simp only [List.map_cons, List.count_cons, ih, beq_iff_eq,
      Prod.mk.injEq]
    by_cases h : f = x
    · subst h; simp
    · have h2 : ¬ x = f := fun hh => h hh.symm
      simp [h2]

/-- The pairs a presenter prints for frequency f all carry the reverse-map
survivor, once per occurrence of f in the frequency multiset. -/
theorem entryPairs_count (m : List (String × Int)) (f : Int) :
    (entryPairs m).count (revLookup m f, f) = (m.map Prod.snd).count f := by
  unfold entryPairs
  rw [count_pair_map (revLookup m), List.count_reverse, count_sortInts]

/-- Any pair a presenter prints carries the reverse-map survivor of its
frequency. -/
theorem entryPairs_mem (m : List (String × Int)) (k : String) (f : Int)
    (h : (k, f) ∈ entryPairs m) : k = revLookup m f := by
  unfold entryPairs at h
  rcases List.mem_map.mp h with ⟨x, _, heq⟩
  have h1 : revLookup m x = k := congrArg Prod.fst heq
  have h2 : x = f := congrArg Prod.snd heq
  rw [← h1, h2]

/-- C9: Each top-items and top-clients presenter prints one header line
plus exactly one entry line per mapping entry; the reverse-map survivor of
a frequency is printed once per entry carrying that frequency, and a
colliding entry whose name is not the survivor never appears among the
printed pairs. -/
theorem presenter_line_per_entry (ti : PiHTopItems) (tc : PiHTopClients) :
    (PiHTopItems.ShowBlockedLines ti).length = ti.Blocked.length + 1 ∧
    (PiHTopItems.ShowQueriesLines ti).length = ti.Queries.length + 1 ∧
    (PiHTopClients.ShowLines tc).length = tc.Clients.length + 1 ∧
    (∀ f : Int, (entryPairs ti.Blocked).count (revLookup ti.Blocked f, f) =
      (ti.Blocked.map Prod.snd).count f) ∧
    (∀ f : Int, (entryPairs tc.Clients).count (revLookup tc.Clients f, f) =
      (tc.Clients.map Prod.snd).count f) ∧
    (∀ (k : String) (f : Int), (k, f) ∈ ti.Blocked →
      k ≠ revLookup ti.Blocked f → (k, f) ∉ entryPairs ti.Blocked) ∧
    (∀ (k : String) (f : Int), (k, f) ∈ tc.Clients →
      k ≠ revLookup tc.Clients f → (k, f) ∉ entryPairs tc.Clients) := by
  refine ⟨?_, ?_, ?_, ?_, ?_, ?_, ?_⟩
  · simp [PiHTopItems.ShowBlockedLines, entryPairs, length_sortInts]
  · simp [PiHTopItems.ShowQueriesLines, entryPairs, length_sortInts]
  · simp [PiHTopClients.ShowLines, entryPairs, length_sortInts]
  · intro f; exact entryPairs_count ti.Blocked f
  · intro f; exact entryPairs_count tc.Clients f
  · intro k f _ hk hmem; exact hk (entryPairs_mem ti.Blocked k f hmem)
  · intro k f _ hk hmem; exact hk (entryPairs_mem tc.Clients k f hmem)

/-- C9 witness: the theorem instantiated on a mapping with a frequency
collision; the blocked display has three entry lines for three entries,
and the non-surviving colliding entry is absent from the printed pairs. -/
theorem presenter_line_per_entry_witness :
    (PiHTopItems.ShowBlockedLines
      ⟨[], [("a.com", 5), ("b.com", 9), ("c.com", 5)]⟩).length = 3 + 1 ∧
    ("a.com", (5 : Int)) ∉
      entryPairs [("a.com", 5), ("b.com", 9), ("c.com", 5)] := by
  have h := presenter_line_per_entry
    ⟨[], [("a.com", 5), ("b.com", 9), ("c.com", 5)]⟩ ⟨[]⟩
  exact ⟨h.1, h.2.2.2.2.2.1 "a.com" 5 (by simp) (by decide)⟩
